import Mathlib

/-!
Shallow embedding of the update/step-execution engine of
`pkg/engine/events.go` (package engine): the `ResourceChanges` summary and
its `HasChanges` method, the `updateActions` step callbacks
(`OnResourceStepPre`, `OnResourceStepPost`, `OnResourceOutputs`), the
`update` orchestration function and the top-level `Update` entry point.
External collaborators (snapshot store, providers, planner, plan walker)
are modelled as environment parameters: their results are inputs, and the
calls the engine makes to them are recorded in an explicit trace.
-/

namespace Pulumi

/-- Operation kinds of a deployment step (`deploy.StepOp`); the spec lists
the variants Same, Create, Update, Delete, Replace, CreateReplacement,
DeleteReplaced. `same` is the no-op kind (`deploy.OpSame`). -/
inductive StepOp where
  | same
  | create
  | update
  | delete
  | replace
  | createReplacement
  | deleteReplaced
deriving DecidableEq, Repr

/-- The list of all step-operation kinds, used to total a changes map:
a Go map ranges only over present keys, and absent keys read as 0, so
summing the map's entries equals summing over every kind. -/
def allStepOps : List StepOp :=
  [StepOp.same, StepOp.create, StepOp.update, StepOp.delete,
   StepOp.replace, StepOp.createReplacement, StepOp.deleteReplaced]

/-- `ResourceChanges` (events.go line 145): the aggregate resource changes
by operation type, `map[deploy.StepOp]int`, modelled as a total function
with absent keys reading 0. -/
abbrev ResourceChanges := StepOp → Int

/-- `ResourceChanges.HasChanges` (events.go lines 148-156): sums the counts
of every operation kind other than `OpSame` and reports whether the sum is
positive. -/
def HasChanges (changes : ResourceChanges) : Bool :=
  let c := allStepOps.foldl
    (fun c op => if op ≠ StepOp.same then c + changes op else c) 0
  decide (0 < c)

/-- `resource.Status`: the result status a provider reports for one step,
one of OK, PartialFailure, Unknown. -/
inductive Status where
  | ok
  | partialFailure
  | unknown
deriving DecidableEq, Repr

/-- Resource identity (`resource.URN`). -/
abbrev URN := String

/-- A Go `error` value is modelled as `Option Err`, `none` being `nil`. -/
abbrev Err := String

/-- Modelled from the spec: `deploy.Step` is an interface implemented by
the out-of-scope planner (spec section 3). The engine reads only the
accessors used in events.go — `URN()`, `Op()`, `Old().InitErrors`,
`Logical()`, `Res().Custom` — and the predicate `isDefaultProviderStep`,
whose definition lives outside this file; each is a step attribute here. -/
structure Step where
  urn : URN
  op : StepOp
  oldInitErrors : List String
  logical : Bool
  custom : Bool
  defaultProvider : Bool
deriving DecidableEq, Repr

/-- Modelled from the spec: the default-provider bootstrap step predicate
(glossary: "an internally generated bootstrap step not directly requested
by the user's program"), read off the step attribute. -/
def isDefaultProviderStep (step : Step) : Bool :=
  step.defaultProvider

/-- The numbered problem lines of the init-error warning (events.go
lines 318-321): the line for index `i` carries problem number `i + 1`
together with the recorded initialization error text. -/
def numberedProblems (errs : List String) : List (Nat × String) :=
  errs.enum.map (fun p => (p.1 + 1, p.2))

/-- Events the engine emits, restricted to the payload parts the engine
itself computes in events.go. A diagnostic warning carries its numbered
problem lines; a diagnostic error carries the URN it is tagged with. -/
inductive EngineEvent where
  | stdoutColor (msg : String)
  | diagWarning (urn : URN) (problems : List (Nat × String))
  | diagError (urn : URN) (err : Err)
  | resourcePre (urn : URN)
  | resourceOutputs (urn : URN)
  | resourceOperationFailed (urn : URN) (status : Status) (steps : Int)
  | preludeEvent
  | updateSummary (maybeCorrupt : Bool) (changes : ResourceChanges)
  | cancelEvent

/-- Whether an event is a warning diagnostic. -/
def EngineEvent.isWarning : EngineEvent → Bool
  | EngineEvent.diagWarning _ _ => true
  | _ => false

/-- Whether an event is a warning diagnostic tagged with the given URN. -/
def EngineEvent.isWarningFor (u : URN) : EngineEvent → Bool
  | EngineEvent.diagWarning v _ => v == u
  | _ => false

/-- Whether an event is the terminal cancel event. -/
def EngineEvent.isCancel : EngineEvent → Bool
  | EngineEvent.cancelEvent => true
  | _ => false

/-- Whether an event is a resource-outputs event. -/
def EngineEvent.isOutputs : EngineEvent → Bool
  | EngineEvent.resourceOutputs _ => true
  | _ => false

/-- Calls the engine makes against the snapshot store, in order. `End`'s
boolean is the `keep` argument telling the store whether to keep the new
state. -/
inductive SnapCall where
  | beginMutation (urn : URN)
  | endMutation (urn : URN) (keep : Bool)
  | registerResourceOutputs (urn : URN)
deriving DecidableEq, Repr

/-- The mutable bookkeeping of `updateActions` (events.go lines 279-288):
the global step counter, the per-kind Ops map, the seen-step registry
(only URN membership is consulted, by `assertSeen`), the sticky corruption
flag, and the `reportDefaultProviderSteps` option read from `Opts`. -/
structure UpdateActions where
  Steps : Int
  Ops : StepOp → Int
  Seen : List URN
  MaybeCorrupt : Bool
  reportDefaultProviderSteps : Bool

/-- `newUpdateActions` (events.go lines 290-298): empty Ops map and Seen
registry, zero-valued step counter and corruption flag. -/
def newUpdateActions (report : Bool) : UpdateActions :=
  { Steps := 0
    Ops := fun _ => 0
    Seen := []
    MaybeCorrupt := false
    reportDefaultProviderSteps := report }

/-- `updateActions.OnResourceStepPre` (events.go lines 300-328): record
the step in the seen registry; unless it is a suppressed default-provider
step, emit the resource-pre event and, for a Same step whose old state
recorded initialization errors, a warning diagnostic enumerating them;
finally call `BeginMutation` on the snapshot store (recorded in the call
trace; its result is the callback's return value, supplied by the
environment). -/
def OnResourceStepPre (acts : UpdateActions) (step : Step) :
    UpdateActions × List EngineEvent × List SnapCall :=
  let acts1 : UpdateActions := { acts with Seen := step.urn :: acts.Seen }
  let events :=
    if acts1.reportDefaultProviderSteps || !isDefaultProviderStep step then
      EngineEvent.resourcePre step.urn ::
        (if step.op = StepOp.same ∧ 0 < step.oldInitErrors.length then
          [EngineEvent.diagWarning step.urn (numberedProblems step.oldInitErrors)]
        else [])
    else []
  (acts1, events, [SnapCall.beginMutation step.urn])

/-- The outcome of one `OnResourceStepPost` callback: the updated
bookkeeping, the events emitted, the snapshot-store calls made, and the
callback's returned error. -/
structure PostResult where
  acts : UpdateActions
  events : List EngineEvent
  snaps : List SnapCall
  ret : Option Err

/-- `updateActions.OnResourceStepPost` (events.go lines 330-382).
`cancelTerminated` models `acts.Context.Cancel.TerminateErr() != nil`;
`err` and `status` are the provider's result; `endErr` is the environment's
result for the final `SnapshotMutation.End` call. `none` as the overall
result models the fatal `assertSeen` assertion firing for an unseen URN. -/
def OnResourceStepPost (acts : UpdateActions) (cancelTerminated : Bool)
    (step : Step) (status : Status) (err : Option Err) (endErr : Option Err) :
    Option PostResult :=
  if acts.Seen.contains step.urn then
    if cancelTerminated then
      some { acts := acts, events := [], snaps := [], ret := none }
    else
      let reportStep := acts.reportDefaultProviderSteps || !isDefaultProviderStep step
      let stepop := step.op
      let next :=
        match err with
        | some e =>
          let actsA :=
            if status = Status.unknown then { acts with MaybeCorrupt := true } else acts
          let errorURN := if reportStep then step.urn else ""
          (actsA,
            EngineEvent.diagError errorURN e ::
              (if reportStep then
                [EngineEvent.resourceOperationFailed step.urn status actsA.Steps]
              else []))
        | none =>
          if reportStep then
            let actsA :=
              if step.logical then
                { acts with
                  Steps := acts.Steps + 1
                  Ops := fun op => if op = stepop then acts.Ops stepop + 1 else acts.Ops op }
              else acts
            (actsA,
              if step.custom then [EngineEvent.resourceOutputs step.urn] else [])
          else (acts, [])
      some { acts := next.1
             events := next.2
             snaps := [SnapCall.endMutation step.urn
               (err.isNone || decide (status = Status.partialFailure))]
             ret := endErr }
  else none

/-- The outcome of one `OnResourceOutputs` callback. -/
structure OutputsResult where
  events : List EngineEvent
  snaps : List SnapCall
  ret : Option Err

/-- `updateActions.OnResourceOutputs` (events.go lines 384-397): assert the
step was seen, emit the resource-outputs event unless the step is a
suppressed default-provider step, and unconditionally call
`RegisterResourceOutputs`, returning its result (`regErr`, supplied by the
environment). -/
def OnResourceOutputs (acts : UpdateActions) (step : Step) (regErr : Option Err) :
    Option OutputsResult :=
  if acts.Seen.contains step.urn then
    some { events :=
             (if acts.reportDefaultProviderSteps || !isDefaultProviderStep step then
               [EngineEvent.resourceOutputs step.urn]
             else [])
           snaps := [SnapCall.registerResourceOutputs step.urn]
           ret := regErr }
  else none

/-- Modelled from the spec: the plan walker (`result.Walk`, defined outside
this file) returns a summary (or nil) and an error, and leaves the
`updateActions` bookkeeping in some final state; all four are environment
inputs to `update`. -/
structure WalkResult where
  summaryExists : Bool
  err : Option Err
  finalOps : ResourceChanges
  finalMaybeCorrupt : Bool

/-- How a call to `update` or `Update` terminates: a normal return carrying
the `ResourceChanges` (nil modelled as `none`) and the error, or a
panic-equivalent unwind (a failed `contract` assertion). -/
inductive UpdateOutcome where
  | panicked
  | ret (changes : Option ResourceChanges) (err : Option Err)

/-- `update` (events.go lines 218-266), with the external collaborators as
environment inputs: `planErr` from `plan`, `planResultExists` whether the
plan result is non-nil, `chdirErr` from `result.Chdir`, the dry-run
`printPlan` results, and the walk's outcome. Returns the call's outcome
and the events emitted by this function itself (prelude and
update-summary). -/
def update (planErr : Option Err) (planResultExists : Bool) (chdirErr : Option Err)
    (dryRun : Bool) (printPlanChanges : Option ResourceChanges)
    (printPlanErr : Option Err) (walk : WalkResult) :
    UpdateOutcome × List EngineEvent :=
  match planErr with
  | some e => (UpdateOutcome.ret none (some e), [])
  | none =>
    if planResultExists then
      match chdirErr with
      | some e => (UpdateOutcome.ret none (some e), [])
      | none =>
        if dryRun then
          (UpdateOutcome.ret printPlanChanges printPlanErr, [])
        else
          if walk.err.isSome && !walk.summaryExists then
            (UpdateOutcome.ret none walk.err, [EngineEvent.preludeEvent])
          else if !walk.summaryExists then
            (UpdateOutcome.panicked, [EngineEvent.preludeEvent])
          else
            (UpdateOutcome.ret (some walk.finalOps) walk.err,
              [EngineEvent.preludeEvent,
               EngineEvent.updateSummary walk.finalMaybeCorrupt walk.finalOps])
    else (UpdateOutcome.ret none none, [])

/-- `Update` (events.go lines 158-177). `contract.Require(u != nil)` and
`contract.Require(ctx != nil)` panic before the cancel-event `defer` is
installed, so a precondition failure emits nothing. After the preconditions
pass, the deferred send of the cancel event runs on every exit — normal
return, error return from `newPlanContext`, or a panic inside the inner
`update` call — so the cancel event is appended to whatever the inner call
emitted. -/
def Update (updateIsNil ctxIsNil : Bool) (planCtxErr : Option Err)
    (inner : UpdateOutcome × List EngineEvent) :
    UpdateOutcome × List EngineEvent :=
  if updateIsNil then (UpdateOutcome.panicked, [])
  else if ctxIsNil then (UpdateOutcome.panicked, [])
  else
    match planCtxErr with
    | some e => (UpdateOutcome.ret none (some e), [EngineEvent.cancelEvent])
    | none => (inner.1, inner.2 ++ [EngineEvent.cancelEvent])

/-- Accumulated state of a serial (Parallel = 1) execution of steps by the
step executor: the bookkeeping after the steps so far, plus the full event
and snapshot-call traces in order. -/
structure ExecTrace where
  acts : UpdateActions
  events : List EngineEvent
  snaps : List SnapCall

/-- Execute one step serially: pre-notification, provider apply (its
`(status, err)` result is an input), post-notification with a successful
`End` call. `none` models a fatal assertion. -/
def runStep (t : ExecTrace) (step : Step) (status : Status) (err : Option Err) :
    Option ExecTrace :=
  let pre := OnResourceStepPre t.acts step
  match OnResourceStepPost pre.1 false step status err none with
  | none => none
  | some r =>
    some { acts := r.acts
           events := t.events ++ pre.2.1 ++ r.events
           snaps := t.snaps ++ pre.2.2 ++ r.snaps }

/-- Execute a list of steps serially, in order. -/
def runSteps (t : ExecTrace) : List (Step × Status × Option Err) → Option ExecTrace
  | [] => some t
  | (step, status, err) :: rest =>
    match runStep t step status err with
    | none => none
    | some t1 => runSteps t1 rest

/-- Fresh bookkeeping with default-provider reporting disabled (the
`reportDefaultProviderSteps` option defaults to false). -/
def initActions : UpdateActions := newUpdateActions false

/-- Scenario step A: a Create step on resource "A". -/
def stepA : Step :=
  { urn := "A"
    op := StepOp.create
    oldInitErrors := []
    logical := true
    custom := true
    defaultProvider := false }

/-- Scenario step B: an Update step on resource "B" whose old state carries
two recorded initialization errors. -/
def stepB : Step :=
  { urn := "B"
    op := StepOp.update
    oldInitErrors := ["err1", "err2"]
    logical := true
    custom := true
    defaultProvider := false }

/-- Scenario step C: a Same step on resource "C" with no initialization
errors. -/
def stepC : Step :=
  { urn := "C"
    op := StepOp.same
    oldInitErrors := []
    logical := true
    custom := true
    defaultProvider := false }

/-- The serial three-step end-to-end run: Create(A), Update(B), Same(C),
every provider returning (OK, nil). -/
def threeStepTrace : Option ExecTrace :=
  runSteps { acts := initActions, events := [], snaps := [] }
    [(stepA, Status.ok, none), (stepB, Status.ok, none), (stepC, Status.ok, none)]

/-- The three-step run's trace, with a vacuous default (the run succeeds). -/
def threeStepTraceD : ExecTrace :=
  threeStepTrace.getD { acts := initActions, events := [], snaps := [] }

/-- A bookkeeping state that has already seen resource "D". -/
def actsD : UpdateActions :=
  { Steps := 0
    Ops := fun _ => 0
    Seen := ["D"]
    MaybeCorrupt := false
    reportDefaultProviderSteps := false }

/-- A Delete step on resource "D". -/
def stepD : Step :=
  { urn := "D"
    op := StepOp.delete
    oldInitErrors := []
    logical := true
    custom := true
    defaultProvider := false }

/-- A default-provider bootstrap step on resource "P". -/
def stepP : Step :=
  { urn := "P"
    op := StepOp.create
    oldInitErrors := []
    logical := true
    custom := true
    defaultProvider := true }

/-- A bookkeeping state that has already seen resource "P", with
default-provider reporting disabled. -/
def actsP : UpdateActions :=
  { Steps := 0
    Ops := fun _ => 0
    Seen := ["P"]
    MaybeCorrupt := false
    reportDefaultProviderSteps := false }

/-- A walk outcome with a summary, no error, empty Ops, corruption set. -/
def walkW : WalkResult :=
  { summaryExists := true
    err := none
    finalOps := fun _ => 0
    finalMaybeCorrupt := true }

/-- A walk outcome with no summary and an error: a total failure before any
step could be attempted. -/
def walkFail : WalkResult :=
  { summaryExists := false
    err := some "boom"
    finalOps := fun _ => 0
    finalMaybeCorrupt := false }

/-- C6: HasChanges returns true if and only if the sum of the counts over
all operation kinds other than the no-op kind (Same) is greater than
zero. -/
theorem hasChanges_iff_sum_pos (changes : ResourceChanges) :
    HasChanges changes = true ↔
      0 < changes StepOp.create + changes StepOp.update + changes StepOp.delete +
          changes StepOp.replace + changes StepOp.createReplacement +
          changes StepOp.deleteReplaced := by
  simp [HasChanges, allStepOps]

/-- C6 witness: the empty changes map has no changes, as its non-Same sum
is zero. -/
theorem hasChanges_iff_sum_pos_witness :
    HasChanges (fun _ => 0) = true ↔
      (0 : Int) < 0 + 0 + 0 + 0 + 0 + 0 :=
  hasChanges_iff_sum_pos (fun _ => 0)

/-- C2: for every step reaching post-notification with cancellation not
signaled (and its URN seen), the End call receives keep = true exactly when
the provider error is nil or the status is PartialFailure; in particular a
step with (Unknown, non-nil error) still commits with keep = false. -/
theorem post_end_keep (acts : UpdateActions) (step : Step) (status : Status)
    (err endErr : Option Err)
    (hseen : acts.Seen.contains step.urn = true) :
    (OnResourceStepPost acts false step status err endErr).map PostResult.snaps =
      some [SnapCall.endMutation step.urn
        (err.isNone || decide (status = Status.partialFailure))] ∧
    (err.isSome = true → status = Status.unknown →
      (OnResourceStepPost acts false step status err endErr).map PostResult.snaps =
        some [SnapCall.endMutation step.urn false]) := by
  have hmem : step.urn ∈ acts.Seen := by simpa using hseen
  constructor
  · cases err <;> simp [OnResourceStepPost, hmem]
  · intro hsome hstat
    subst hstat
    cases err with
    | none => simp at hsome
    | some e => simp [OnResourceStepPost, hmem]

/-- C2 witness: a Delete step of resource "D" whose provider returns
(Unknown, non-nil error) still commits its checkpoint with keep = false. -/
theorem post_end_keep_witness :
    (OnResourceStepPost actsD false stepD Status.unknown (some "boom") none).map
      PostResult.snaps = some [SnapCall.endMutation "D" false] := by
  have h := post_end_keep actsD stepD Status.unknown (some "boom") none (by decide)
  exact h.2 rfl rfl

/-- C3: the corruption flag after post-notification is the old flag or-ed
with (provider error non-nil and status Unknown) — so it is set exactly in
that case, Unknown with nil error does not set it, and once set it is never
cleared; pre-notification leaves it unchanged; and the final update-summary
event carries the walk's final corruption flag. -/
theorem maybeCorrupt_set_exactly (acts : UpdateActions) (step : Step)
    (status : Status) (err endErr : Option Err) (walk : WalkResult)
    (hseen : acts.Seen.contains step.urn = true) :
    (OnResourceStepPost acts false step status err endErr).map
        (fun r => r.acts.MaybeCorrupt) =
      some (acts.MaybeCorrupt || (err.isSome && decide (status = Status.unknown))) ∧
    (OnResourceStepPre acts step).1.MaybeCorrupt = acts.MaybeCorrupt ∧
    (walk.summaryExists = true →
      EngineEvent.updateSummary walk.finalMaybeCorrupt walk.finalOps ∈
        (update none true none false none none walk).2) := by
  have hmem : step.urn ∈ acts.Seen := by simpa using hseen
  refine ⟨?_, ?_, ?_⟩
  · cases err with
    | none =>
      simp [OnResourceStepPost, hmem]
      split_ifs <;> simp_all
    | some e =>
      by_cases hs : status = Status.unknown <;>
        simp [OnResourceStepPost, hmem, hs]
  · simp [OnResourceStepPre]
  · intro hs
    simp [update, hs]

/-- C3 witness: a provider result (Unknown, non-nil error) on step D sets
the corruption flag starting from a clear one. -/
theorem maybeCorrupt_set_exactly_witness :
    (OnResourceStepPost actsD false stepD Status.unknown (some "boom") none).map
      (fun r => r.acts.MaybeCorrupt) = some true := by
  have h := maybeCorrupt_set_exactly actsD stepD Status.unknown (some "boom") none
    walkW (by decide)
  simpa using h.1

/-- C4: when the cancellation signal has fired before post-notification,
the callback returns immediately with nil: bookkeeping unchanged, no
events, no snapshot-store calls, for every provider result. -/
theorem post_cancelled_frame (acts : UpdateActions) (step : Step)
    (status : Status) (err endErr : Option Err)
    (hseen : acts.Seen.contains step.urn = true) :
    OnResourceStepPost acts true step status err endErr =
      some { acts := acts, events := [], snaps := [], ret := none } := by
  have hmem : step.urn ∈ acts.Seen := by simpa using hseen
  simp [OnResourceStepPost, hmem]

/-- C4 witness: a cancelled post-notification for step D with a failing
provider result leaves everything untouched. -/
theorem post_cancelled_frame_witness :
    OnResourceStepPost actsD true stepD Status.unknown (some "boom") (some "late") =
      some { acts := actsD, events := [], snaps := [], ret := none } :=
  post_cancelled_frame actsD stepD Status.unknown (some "boom") (some "late")
    (by decide)

/-- C5: for a reportable step with nil provider error, the Steps counter
and Ops entry for the step's kind each grow by one exactly when the step is
Logical, and the resource-outputs event is emitted exactly when the
resource is custom. -/
theorem post_success_counts (acts : UpdateActions) (step : Step)
    (status : Status) (endErr : Option Err)
    (hseen : acts.Seen.contains step.urn = true)
    (hreport : (acts.reportDefaultProviderSteps || !isDefaultProviderStep step) = true) :
    (OnResourceStepPost acts false step status none endErr).map
        (fun r => (r.acts.Steps, r.acts.Ops step.op, r.events)) =
      some (acts.Steps + (if step.logical then 1 else 0),
            acts.Ops step.op + (if step.logical then 1 else 0),
            if step.custom then [EngineEvent.resourceOutputs step.urn] else []) := by
  have hmem : step.urn ∈ acts.Seen := by simpa using hseen
  cases hl : step.logical <;> cases hc : step.custom <;>
    simp [OnResourceStepPost, hmem, hreport, hl, hc]

/-- C5 witness: a logical custom Delete step D with nil provider error
takes Steps from 0 to 1, Ops[Delete] from 0 to 1, and emits a
resource-outputs event. -/
theorem post_success_counts_witness :
    (OnResourceStepPost actsD false stepD Status.ok none none).map
        (fun r => (r.acts.Steps, r.acts.Ops stepD.op, r.events)) =
      some (1, 1, [EngineEvent.resourceOutputs "D"]) := by
  have h := post_success_counts actsD stepD Status.ok none (by decide) (by decide)
  simpa using h

/-- C7: on the non-dry-run path with plan and Chdir successful, a walk
with a non-nil error and nil summary makes update return that error with a
nil ResourceChanges, while any walk with a summary makes update return the
accumulated Ops even alongside a non-nil error. -/
theorem update_error_policy (walk : WalkResult) (e : Err) :
    (walk.err = some e → walk.summaryExists = false →
      update none true none false none none walk =
        (UpdateOutcome.ret none (some e), [EngineEvent.preludeEvent])) ∧
    (walk.summaryExists = true →
      (update none true none false none none walk).1 =
        UpdateOutcome.ret (some walk.finalOps) walk.err) := by
  constructor
  · intro he hs
    simp [update, he, hs]
  · intro hs
    simp [update, hs]

/-- C7 witness: a total walk failure (no summary, error "boom") returns a
nil ResourceChanges together with the error. -/
theorem update_error_policy_witness :
    update none true none false none none walkFail =
      (UpdateOutcome.ret none (some "boom"), [EngineEvent.preludeEvent]) :=
  (update_error_policy walkFail "boom").1 rfl rfl

/-- The inner update function itself never emits the terminal cancel
event; only the deferred action installed in Update does. -/
theorem update_events_cancel_count (planErr : Option Err) (planResultExists : Bool)
    (chdirErr : Option Err) (dryRun : Bool) (printPlanChanges : Option ResourceChanges)
    (printPlanErr : Option Err) (walk : WalkResult) :
    (update planErr planResultExists chdirErr dryRun printPlanChanges
        printPlanErr walk).2.countP EngineEvent.isCancel = 0 := by
  cases planErr <;> cases planResultExists <;> cases chdirErr <;> cases dryRun
  all_goals simp [update]
  all_goals split_ifs
  all_goals simp [List.countP_cons, List.countP_nil, EngineEvent.isCancel]

/-- C8 counterexample: a call to Update with a nil update argument panics
in precondition validation before the cancel-event defer is installed, so
it emits no cancel event at all — not exactly one. -/
theorem update_nil_precondition_no_cancel :
    (Update true false none
        (update none true none false none none walkW)).2.countP
      EngineEvent.isCancel = 0 := by
  simp [Update, List.countP_nil]

/-- C8 amended: every call to Update whose preconditions pass (non-nil
update and context) emits exactly one terminal cancel event on exit, on
every termination path, including plan-context creation failure; a
precondition failure panics before the cancel defer is registered and
emits nothing. -/
theorem update_cancel_exactly_once (planCtxErr planErr : Option Err)
    (planResultExists : Bool) (chdirErr : Option Err) (dryRun : Bool)
    (printPlanChanges : Option ResourceChanges) (printPlanErr : Option Err)
    (walk : WalkResult) :
    (Update false false planCtxErr
        (update planErr planResultExists chdirErr dryRun printPlanChanges
          printPlanErr walk)).2.countP EngineEvent.isCancel = 1 := by
  cases planCtxErr with
  | some e => simp [Update, List.countP_cons, List.countP_nil, EngineEvent.isCancel]
  | none =>
    have h := update_events_cancel_count planErr planResultExists chdirErr dryRun
      printPlanChanges printPlanErr walk
    simp [Update, List.countP_append, List.countP_cons, List.countP_nil,
      EngineEvent.isCancel, h]

/-- C8 witness: with preconditions passing and plan-context creation
failing, exactly one cancel event is emitted. -/
theorem update_cancel_exactly_once_witness :
    (Update false false (some "ctxfail")
        (update none true none false none none walkW)).2.countP
      EngineEvent.isCancel = 1 :=
  update_cancel_exactly_once (some "ctxfail") none true none false none none walkW

/-- C9: the value returned by OnResourceStepPost (cancellation not
signaled) is exactly the End call's result: nil when End succeeds even if
the provider errored, and End's error when End fails even if the provider
succeeded. -/
theorem post_ret_is_end_result (acts : UpdateActions) (step : Step)
    (status : Status) (err endErr : Option Err)
    (hseen : acts.Seen.contains step.urn = true) :
    (OnResourceStepPost acts false step status err endErr).map PostResult.ret =
      some endErr := by
  have hmem : step.urn ∈ acts.Seen := by simpa using hseen
  cases err <;> simp [OnResourceStepPost, hmem]

/-- C9 witness: step D with a failing snapshot End call but a successful
provider call returns the End error. -/
theorem post_ret_is_end_result_witness :
    (OnResourceStepPost actsD false stepD Status.ok none (some "endfail")).map
      PostResult.ret = some (some "endfail") :=
  post_ret_is_end_result actsD stepD Status.ok none (some "endfail") (by decide)

/-- C10: OnResourceOutputs always calls RegisterResourceOutputs and
returns its result, even for a default-provider step with reporting
disabled; the suppression check gates only the resource-outputs event. -/
theorem outputs_always_registers (acts : UpdateActions) (step : Step)
    (regErr : Option Err)
    (hseen : acts.Seen.contains step.urn = true) :
    (OnResourceOutputs acts step regErr).map (fun r => (r.snaps, r.ret)) =
      some ([SnapCall.registerResourceOutputs step.urn], regErr) ∧
    ((acts.reportDefaultProviderSteps || !isDefaultProviderStep step) = false →
      (OnResourceOutputs acts step regErr).map OutputsResult.events = some []) := by
  have hmem : step.urn ∈ acts.Seen := by simpa using hseen
  constructor
  · simp [OnResourceOutputs, hmem]
  · intro hrep
    simp [OnResourceOutputs, hmem, hrep]

/-- C10 witness: a suppressed default-provider step P still reaches
RegisterResourceOutputs, returns its error, and emits no event. -/
theorem outputs_always_registers_witness :
    (OnResourceOutputs actsP stepP (some "regfail")).map (fun r => (r.snaps, r.ret)) =
      some ([SnapCall.registerResourceOutputs "P"], some "regfail") ∧
    (OnResourceOutputs actsP stepP (some "regfail")).map OutputsResult.events =
      some [] := by
  have h := outputs_always_registers actsP stepP (some "regfail") (by decide)
  exact ⟨h.1, h.2 (by decide)⟩

/-- C1 counterexample: in the serial run Create(A), Update(B) with two
recorded init errors on B's old state, Same(C), all providers (OK, nil),
the run completes but no warning diagnostic tagged with B is emitted —
the init-error warning fires only for Same steps, and B is an Update. -/
theorem threeStep_no_warning :
    threeStepTrace.isSome = true ∧
    threeStepTraceD.events.countP (EngineEvent.isWarningFor "B") = 0 := by
  decide

/-- C1 amended: in the serial three-step run Create(A), Update(B) with two
recorded init errors on B's old state, Same(C), all providers (OK, nil):
no warning diagnostic is emitted at all (the warning applies only to Same
steps with init errors), ResourceChanges is Create 1, Update 1, Same 1 and
nothing else, HasChanges is true, the corruption flag stays false, and the
three checkpoints commit successfully in order A, B, C. -/
theorem threeStep_run_summary :
    threeStepTrace.isSome = true ∧
    threeStepTraceD.events.countP EngineEvent.isWarning = 0 ∧
    threeStepTraceD.acts.Ops StepOp.create = 1 ∧
    threeStepTraceD.acts.Ops StepOp.update = 1 ∧
    threeStepTraceD.acts.Ops StepOp.same = 1 ∧
    threeStepTraceD.acts.Ops StepOp.delete = 0 ∧
    threeStepTraceD.acts.Ops StepOp.replace = 0 ∧
    threeStepTraceD.acts.Ops StepOp.createReplacement = 0 ∧
    threeStepTraceD.acts.Ops StepOp.deleteReplaced = 0 ∧
    HasChanges threeStepTraceD.acts.Ops = true ∧
    threeStepTraceD.acts.MaybeCorrupt = false ∧
    threeStepTraceD.snaps =
      [SnapCall.beginMutation "A", SnapCall.endMutation "A" true,
       SnapCall.beginMutation "B", SnapCall.endMutation "B" true,
       SnapCall.beginMutation "C", SnapCall.endMutation "C" true] := by
  decide

end Pulumi
